import Mathlib

/-!
Verification of the `workers` package (src/workers.go): a dynamically
resizable worker pool with three counters (`size`, `busy`, `closing`),
a job channel and a stop channel.

The embedding models the pool's observable counter state at consistent
observation points (between complete API calls, with no concurrent
mutation), which is what the verified claims quantify over.  Channels
are represented by their capacity and closed flags; goroutine spawns,
stop-channel sends and worker exits are recorded in cumulative
instrumentation counters (`spawned`, `signals`, `exited`) so that frame
conditions ("no workers are spawned", "no shutdown signals are sent")
are statable.  The opaque handler `run` is not represented: no pool
operation inspects it, and handler execution is modelled by the
`jobStart`/`jobEnd` steps of the `Reachable` relation below.

Go panics (negative pool size, `make` with negative capacity, closing a
closed channel, sending on a closed channel) are modelled as `none` of
an `Option`-valued result.  A blocking send on the `stop` channel in
`ScaleDown` is modelled as consumed by one worker, which then exits:
this is the state `ScaleDown` leaves behind by the time it returns.
-/

namespace Workers

/-- The `WorkerPool` struct of src/workers.go.  `size`, `busy` and
`closing` are its three mutex-guarded counters.  `bufCap` is the
capacity of the `jobs` channel (`make(chan []interface\x7b\x7d)` is
capacity 0); `jobsClosed` and `stopClosed` record whether the two
channels have been closed.  `spawned`, `exited` and `signals` are
cumulative instrumentation: total worker goroutines started by
`createWorkers`, total workers that have exited, and total sends on the
`stop` channel. -/
structure WorkerPool where
  size : Int
  busy : Int
  closing : Int
  bufCap : Int
  jobsClosed : Bool
  stopClosed : Bool
  spawned : Int
  exited : Int
  signals : Int
deriving DecidableEq, Repr

/-- `createWorkers(count)`: the loop `for i := 0; i < count; i++` starts
one goroutine per iteration, so `max count 0` workers are spawned. -/
def createWorkers (w : WorkerPool) (count : Int) : WorkerPool :=
  { w with spawned := w.spawned + max count 0 }

/-- `NewPool(size, run)`: panics (`none`) when `size < 0`; otherwise
builds the pool with unbuffered `jobs` channel and spawns `size`
workers. -/
def NewPool (size : Int) : Option WorkerPool :=
  if size < 0 then none
  else some (createWorkers
    { size := size, busy := 0, closing := 0, bufCap := 0,
      jobsClosed := false, stopClosed := false,
      spawned := 0, exited := 0, signals := 0 } size)

/-- `NewBufferedPool(size, bufSize, run)`: panics (`none`) when
`size < 0`; `make(chan []interface\x7b\x7d, bufSize)` panics at runtime
when `bufSize < 0`; otherwise builds the pool with a `bufSize`-slot
`jobs` channel and spawns `size` workers. -/
def NewBufferedPool (size bufSize : Int) : Option WorkerPool :=
  if size < 0 then none
  else if bufSize < 0 then none
  else some (createWorkers
    { size := size, busy := 0, closing := 0, bufCap := bufSize,
      jobsClosed := false, stopClosed := false,
      spawned := 0, exited := 0, signals := 0 } size)

/-- `Run(data...)`: `w.jobs <- data` panics (`none`) when the `jobs`
channel is closed; otherwise the item is handed to a worker or buffered.
The resulting busy-counter changes happen in the worker goroutine, not
in `Run` itself (they are the `jobStart`/`jobEnd` steps of
`Reachable`). -/
def Run (w : WorkerPool) : Option WorkerPool :=
  if w.jobsClosed then none else some w

/-- `modClose(change)`: `w.closing += change` under `closingMutex`. -/
def modClose (w : WorkerPool) (change : Int) : WorkerPool :=
  { w with closing := w.closing + change }

/-- The loop `for i := 0; i < delta; i++ { w.stop <- struct\x7b\x7d\x7b\x7d; w.modClose(-1) }`
of `ScaleDown`, run for `k` iterations.  Each blocking send on `stop`
is consumed by exactly one worker, which exits; then `closing` is
decremented. -/
def stopLoop (w : WorkerPool) : Nat → WorkerPool
  | 0 => w
  | k + 1 =>
      stopLoop
        (modClose { w with signals := w.signals + 1, exited := w.exited + 1 } (-1)) k

/-- `ScaleUp(newSize)`: error when `newSize <= w.size`; otherwise set
`size = newSize` under the lock and spawn `delta = newSize - oldSize`
workers.  Returned pair is (result, pool state after the call). -/
def ScaleUp (w : WorkerPool) (newSize : Int) : Except String Unit × WorkerPool :=
  if newSize ≤ w.size then
    (.error "the new size must be greater than the current size", w)
  else
    let delta := newSize - w.size
    (.ok (), createWorkers { w with size := newSize } delta)

/-- `ScaleDown(newSize)`: error when `newSize < 0 || newSize >= w.size`;
otherwise set `size = newSize` under the lock, `modClose(delta)` with
`delta = oldSize - newSize`, then send `delta` stop signals one at a
time, decrementing `closing` after each is consumed. -/
def ScaleDown (w : WorkerPool) (newSize : Int) : Except String Unit × WorkerPool :=
  if newSize < 0 ∨ newSize ≥ w.size then
    (.error "the new size must be between zero and the current size", w)
  else
    let delta := w.size - newSize
    (.ok (), stopLoop (modClose { w with size := newSize } delta) delta.toNat)

/-- `ScaleTo(newSize)`: delegates to `ScaleDown` when `newSize < w.size`,
to `ScaleUp` when `newSize > w.size`, and errors when equal. -/
def ScaleTo (w : WorkerPool) (newSize : Int) : Except String Unit × WorkerPool :=
  if newSize < w.size then ScaleDown w newSize
  else if newSize > w.size then ScaleUp w newSize
  else (.error "newSize must not be equal to the current size", w)

/-- `Stop()`: `close(w.jobs); close(w.stop)`.  Closing an already-closed
channel panics (`none`). -/
def Stop (w : WorkerPool) : Option WorkerPool :=
  if w.jobsClosed ∨ w.stopClosed then none
  else some { w with jobsClosed := true, stopClosed := true }

/-- `StopAndCount()`: `_ = w.ScaleDown(0)` (error discarded), then the
same two closes as `Stop()`. -/
def StopAndCount (w : WorkerPool) : Option WorkerPool :=
  Stop (ScaleDown w 0).2

/-- `Size()`: the `size` counter (lock-protected read). -/
def Size (w : WorkerPool) : Int := w.size

/-- `Busy()`: the `busy` counter (lock-protected read). -/
def Busy (w : WorkerPool) : Int := w.busy

/-- `Waiting()`: `w.Size() - w.Busy()`. -/
def Waiting (w : WorkerPool) : Int := Size w - Busy w

/-- `Excess()`: the `closing` counter (lock-protected read). -/
def Excess (w : WorkerPool) : Int := w.closing

/-- Number of live worker goroutines: spawned minus exited. -/
def live (w : WorkerPool) : Int := w.spawned - w.exited

/-- Pool states observable at a consistent point during normal (not yet
stopped) operation: some constructor call followed by any interleaving
of complete scale operations and per-worker dispatch events.
`jobStart` (a live idle worker receives a job and increments `busy`)
requires an idle worker, `busy < live`; `jobEnd` (the handler returns
and the worker decrements `busy`) requires `0 < busy`.  A successful
`ScaleDown` blocks until `delta` workers are idle and consume the stop
signals, so by the time it returns at most `n` workers are still busy;
the interleaved `jobEnd` events are folded into the pre-call state,
giving the guard `busy ≤ n`. -/
inductive Reachable : WorkerPool → Prop
  | new (size : Int) (w : WorkerPool) :
      NewPool size = some w → Reachable w
  | newBuffered (size bufSize : Int) (w : WorkerPool) :
      NewBufferedPool size bufSize = some w → Reachable w
  | scaleUp (w : WorkerPool) (n : Int) :
      Reachable w → Reachable (ScaleUp w n).2
  | scaleDown (w : WorkerPool) (n : Int) :
      Reachable w → w.busy ≤ n → Reachable (ScaleDown w n).2
  | jobStart (w : WorkerPool) :
      Reachable w → w.busy < live w → Reachable { w with busy := w.busy + 1 }
  | jobEnd (w : WorkerPool) :
      Reachable w → 0 < w.busy → Reachable { w with busy := w.busy - 1 }

/-- Invariant of quiescent states of a running pool. -/
def Inv (w : WorkerPool) : Prop :=
  0 ≤ w.busy ∧ w.busy ≤ live w ∧ live w = w.size ∧ w.closing = 0 ∧
    w.jobsClosed = false ∧ w.stopClosed = false ∧ 0 ≤ w.size

/-- A concrete pool used to instantiate hypotheses: `NewPool 3`. -/
def testPool : WorkerPool :=
  { size := 3, busy := 0, closing := 0, bufCap := 0,
    jobsClosed := false, stopClosed := false,
    spawned := 3, exited := 0, signals := 0 }

theorem newPool_three : NewPool 3 = some testPool := by decide

theorem stopLoop_spec (k : Nat) : ∀ w : WorkerPool,
    stopLoop w k =
      { w with closing := w.closing - k, exited := w.exited + k,
               signals := w.signals + k } := by
  induction k with
  | zero => intro w; simp [stopLoop]
  | succ n ih =>
      intro w
      simp only [stopLoop, modClose, ih]
      refine WorkerPool.mk.injEq .. ▸ ?_
      push_cast
      refine ⟨rfl, rfl, by ring, rfl, rfl, rfl, rfl, by ring, by ring⟩

theorem reachable_inv {w : WorkerPool} (h : Reachable w) : Inv w := by
  induction h with
  | new size w h =>
      rw [NewPool] at h
      split at h
      · exact Option.noConfusion h
      · rename_i hsize
        injection h with h
        subst h
        simp only [Inv, createWorkers, live]
        refine ⟨le_refl 0, by omega, by omega, trivial, trivial, trivial, by omega⟩
  | newBuffered size bufSize w h =>
      rw [NewBufferedPool] at h
      split at h
      · exact Option.noConfusion h
      · split at h
        · exact Option.noConfusion h
        · rename_i hsize hbuf
          injection h with h
          subst h
          simp only [Inv, createWorkers, live]
          refine ⟨le_refl 0, by omega, by omega, trivial, trivial, trivial, by omega⟩
  | scaleUp w n hw ih =>
      rw [ScaleUp]
      split
      · exact ih
      · rename_i hlt
        simp only [Inv, createWorkers, live] at ih ⊢
        obtain ⟨h1, h2, h3, h4, h5, h6, h7⟩ := ih
        exact ⟨h1, by omega, by omega, h4, h5, h6, by omega⟩
  | scaleDown w n hw hbusy ih =>
      rw [ScaleDown]
      split
      · exact ih
      · rename_i hcond
        simp only [stopLoop_spec, modClose, Inv, live] at ih ⊢
        obtain ⟨h1, h2, h3, h4, h5, h6, h7⟩ := ih
        exact ⟨h1, by omega, by omega, by omega, h5, h6, by omega⟩
  | jobStart w hw hidle ih =>
      simp only [Inv, live] at ih hidle ⊢
      obtain ⟨h1, h2, h3, h4, h5, h6, h7⟩ := ih
      exact ⟨by omega, by omega, h3, h4, h5, h6, h7⟩
  | jobEnd w hw hbusy ih =>
      simp only [Inv, live] at ih ⊢
      obtain ⟨h1, h2, h3, h4, h5, h6, h7⟩ := ih
      exact ⟨by omega, by omega, h3, h4, h5, h6, h7⟩

/-- C1: on a reachable pool, `ScaleDown(n)` returns an error when
`n < 0` or `n ≥` the current size, leaving the pool unchanged; when
`0 ≤ n <` the current size it succeeds, and after it returns
`Size() = n` and `Excess() = 0`: the `closing` counter is raised by
`delta` and lowered back to its pre-call value (0 in every reachable
quiescent state) by the time the call returns. -/
theorem claim1_scaleDown (w : WorkerPool) (n : Int) (hw : Reachable w) :
    ((n < 0 ∨ n ≥ w.size) → ∃ e, ScaleDown w n = (.error e, w)) ∧
    (0 ≤ n → n < w.size →
      (ScaleDown w n).1 = .ok () ∧
      Size (ScaleDown w n).2 = n ∧
      Excess (ScaleDown w n).2 = Excess w ∧
      Excess (ScaleDown w n).2 = 0) := by
  have hinv := reachable_inv hw
  constructor
  · intro h
    rw [ScaleDown, if_pos h]
    exact ⟨_, rfl⟩
  · intro h0 hlt
    have hc : ¬(n < 0 ∨ n ≥ w.size) := by omega
    rw [ScaleDown, if_neg hc]
    have hcl : w.closing = 0 := hinv.2.2.2.1
    simp only [stopLoop_spec, modClose, Size, Excess]
    refine ⟨trivial, trivial, by omega, by omega⟩

/-- Witness for C1 at `testPool = NewPool 3`: scaling down to 5 errors,
scaling down to 1 succeeds with size 1 and excess 0. -/
theorem claim1_scaleDown_witness :
    (∃ e, ScaleDown testPool 5 = (.error e, testPool)) ∧
    ((ScaleDown testPool 1).1 = .ok () ∧
     Size (ScaleDown testPool 1).2 = 1 ∧
     Excess (ScaleDown testPool 1).2 = Excess testPool ∧
     Excess (ScaleDown testPool 1).2 = 0) :=
  ⟨(claim1_scaleDown testPool 5 (Reachable.new 3 testPool newPool_three)).1 (by decide),
   (claim1_scaleDown testPool 1 (Reachable.new 3 testPool newPool_three)).2
     (by decide) (by decide)⟩

/-- C2: `ScaleUp(n)` returns an error when `n ≤` the current size,
leaving the pool unchanged; when `n >` the current size it succeeds,
sets the size counter to exactly `n` and spawns exactly
`n - oldSize` workers, so `Size() = n` afterwards. -/
theorem claim2_scaleUp (w : WorkerPool) (n : Int) :
    (n ≤ w.size → ∃ e, ScaleUp w n = (.error e, w)) ∧
    (w.size < n →
      (ScaleUp w n).1 = .ok () ∧
      Size (ScaleUp w n).2 = n ∧
      (ScaleUp w n).2.spawned = w.spawned + (n - w.size)) := by
  constructor
  · intro h
    rw [ScaleUp, if_pos h]
    exact ⟨_, rfl⟩
  · intro h
    rw [ScaleUp, if_neg (by omega)]
    simp only [createWorkers, Size]
    refine ⟨trivial, trivial, by omega⟩

/-- Witness for C2 at `testPool = NewPool 3`: scaling up to 2 errors,
scaling up to 5 succeeds with size 5 and 2 workers spawned. -/
theorem claim2_scaleUp_witness :
    (∃ e, ScaleUp testPool 2 = (.error e, testPool)) ∧
    ((ScaleUp testPool 5).1 = .ok () ∧
     Size (ScaleUp testPool 5).2 = 5 ∧
     (ScaleUp testPool 5).2.spawned = testPool.spawned + (5 - testPool.size)) :=
  ⟨(claim2_scaleUp testPool 2).1 (by decide),
   (claim2_scaleUp testPool 5).2 (by decide)⟩

/-- C3: `ScaleTo(n)` errors exactly in its own no-op case `n =` current
size, leaving the pool unchanged; for `n <` current size it is the very
call `ScaleDown(n)` (so it also returns the `ScaleDown` error for
`n < 0`), and for `n >` current size it is the very call
`ScaleUp(n)`. -/
theorem claim3_scaleTo (w : WorkerPool) (n : Int) :
    (n = w.size → ∃ e, ScaleTo w n = (.error e, w)) ∧
    (n < w.size → ScaleTo w n = ScaleDown w n) ∧
    (w.size < n → ScaleTo w n = ScaleUp w n) := by
  refine ⟨?_, ?_, ?_⟩
  · intro h
    rw [ScaleTo, if_neg (by omega), if_neg (by omega)]
    exact ⟨_, rfl⟩
  · intro h
    rw [ScaleTo, if_pos h]
  · intro h
    rw [ScaleTo, if_neg (by omega), if_pos h]

/-- Witness for C3 at `testPool = NewPool 3`: `ScaleTo 3` errors,
`ScaleTo 1` is `ScaleDown 1`, `ScaleTo 7` is `ScaleUp 7`. -/
theorem claim3_scaleTo_witness :
    (∃ e, ScaleTo testPool 3 = (.error e, testPool)) ∧
    ScaleTo testPool 1 = ScaleDown testPool 1 ∧
    ScaleTo testPool 7 = ScaleUp testPool 7 :=
  ⟨(claim3_scaleTo testPool 3).1 (by decide),
   (claim3_scaleTo testPool 1).2.1 (by decide),
   (claim3_scaleTo testPool 7).2.2 (by decide)⟩

/-- C4: `StopAndCount()` is `ScaleDown(0)` followed by closing the
`jobs` channel and the `stop` channel (the same closures as `Stop()`),
and on every reachable pool — i.e. after any sequence of prior
successful scale operations — it returns with `Excess() = 0`. -/
theorem claim4_stopAndCount (w : WorkerPool) (hw : Reachable w) :
    StopAndCount w = Stop (ScaleDown w 0).2 ∧
    ∃ w', StopAndCount w = some w' ∧ Excess w' = 0 := by
  obtain ⟨h1, h2, h3, h4, h5, h6, h7⟩ := reachable_inv hw
  refine ⟨rfl, ?_⟩
  rw [StopAndCount, ScaleDown]
  split
  · rw [Stop, if_neg (by simp [h5, h6])]
    exact ⟨_, rfl, h4⟩
  · simp only [stopLoop_spec, modClose]
    rw [Stop, if_neg (by simp [h5, h6])]
    refine ⟨_, rfl, ?_⟩
    simp only [Excess]
    omega

/-- Witness for C4 at `testPool = NewPool 3`. -/
theorem claim4_stopAndCount_witness :
    StopAndCount testPool = Stop (ScaleDown testPool 0).2 ∧
    ∃ w', StopAndCount testPool = some w' ∧ Excess w' = 0 :=
  claim4_stopAndCount testPool (Reachable.new 3 testPool newPool_three)

/-- C5: `NewPool(size, run)` with `size ≥ 0` yields a pool with
`Size() = size`, `Busy() = 0` and `Excess() = 0`; with `size < 0` it
panics.  The handler plays no role in the pool's counters. -/
theorem claim5_newPool (size : Int) :
    (size < 0 → NewPool size = none) ∧
    (0 ≤ size → ∃ p, NewPool size = some p ∧
      Size p = size ∧ Busy p = 0 ∧ Excess p = 0) := by
  constructor
  · intro h
    rw [NewPool, if_pos h]
  · intro h
    rw [NewPool, if_neg (by omega)]
    exact ⟨_, rfl, rfl, rfl, rfl⟩

/-- Witness for C5 at sizes `-1` and `4`. -/
theorem claim5_newPool_witness :
    NewPool (-1) = none ∧
    ∃ p, NewPool 4 = some p ∧ Size p = 4 ∧ Busy p = 0 ∧ Excess p = 0 :=
  ⟨(claim5_newPool (-1)).1 (by decide), (claim5_newPool 4).2 (by decide)⟩

/-- C6: at any consistent observation point of a running pool (a
reachable quiescent state, so no concurrent mutation between the two
reads), `Waiting() = Size() - Busy()`, and this value is non-negative
and at most `Size()`. -/
theorem claim6_waiting (w : WorkerPool) (hw : Reachable w) :
    Waiting w = Size w - Busy w ∧ 0 ≤ Waiting w ∧ Waiting w ≤ Size w := by
  obtain ⟨h1, h2, h3, h4, h5, h6, h7⟩ := reachable_inv hw
  simp only [live] at h2 h3
  refine ⟨rfl, ?_, ?_⟩ <;> simp only [Waiting, Size, Busy] <;> omega

/-- Witness for C6 at `testPool = NewPool 3`. -/
theorem claim6_waiting_witness :
    Waiting testPool = Size testPool - Busy testPool ∧
    0 ≤ Waiting testPool ∧ Waiting testPool ≤ Size testPool :=
  claim6_waiting testPool (Reachable.new 3 testPool newPool_three)

/-- C7: `NewBufferedPool(size, 0, run)` is the same construction as
`NewPool(size, run)` (buffer capacity 0 is the unbuffered form); for
`size ≥ 0` and `bufferCapacity ≥ 0` construction succeeds with
`Size() = size` and `Busy() = 0`; for `size < 0` it panics. -/
theorem claim7_newBufferedPool (size bufSize : Int) :
    NewBufferedPool size 0 = NewPool size ∧
    (0 ≤ size → 0 ≤ bufSize → ∃ p, NewBufferedPool size bufSize = some p ∧
      Size p = size ∧ Busy p = 0 ∧ Excess p = 0) ∧
    (size < 0 → NewBufferedPool size bufSize = none) := by
  refine ⟨?_, ?_, ?_⟩
  · rw [NewBufferedPool, NewPool]
    split
    · rfl
    · rw [if_neg (by omega)]
  · intro h1 h2
    rw [NewBufferedPool, if_neg (by omega), if_neg (by omega)]
    exact ⟨_, rfl, rfl, rfl, rfl⟩
  · intro h
    rw [NewBufferedPool, if_pos h]

/-- Witness for C7 at size 4, buffer capacities 0 and 2, and size -1. -/
theorem claim7_newBufferedPool_witness :
    NewBufferedPool 4 0 = NewPool 4 ∧
    (∃ p, NewBufferedPool 4 2 = some p ∧
      Size p = 4 ∧ Busy p = 0 ∧ Excess p = 0) ∧
    NewBufferedPool (-1) 2 = none :=
  ⟨(claim7_newBufferedPool 4 0).1,
   (claim7_newBufferedPool 4 2).2.1 (by decide) (by decide),
   (claim7_newBufferedPool (-1) 2).2.2 (by decide)⟩

theorem scaleUp_error_frame (w : WorkerPool) (n : Int) :
    (∃ e, (ScaleUp w n).1 = .error e) → (ScaleUp w n).2 = w := by
  rw [ScaleUp]
  split
  · intro _; rfl
  · rintro ⟨e, he⟩
    exact Except.noConfusion he

theorem scaleDown_error_frame (w : WorkerPool) (n : Int) :
    (∃ e, (ScaleDown w n).1 = .error e) → (ScaleDown w n).2 = w := by
  rw [ScaleDown]
  split
  · intro _; rfl
  · rintro ⟨e, he⟩
    exact Except.noConfusion he

/-- C8: whenever `ScaleUp`, `ScaleDown` or `ScaleTo` returns an error,
the pool state is completely unchanged (the returned state is the input
state) — in particular `Size()`, `Busy()` and `Excess()` read the same
values, no workers are spawned (`spawned` unchanged) and no shutdown
signals are sent (`signals` unchanged). -/
theorem claim8_errorFrame (w : WorkerPool) (n : Int) :
    ((∃ e, (ScaleUp w n).1 = .error e) → (ScaleUp w n).2 = w) ∧
    ((∃ e, (ScaleDown w n).1 = .error e) → (ScaleDown w n).2 = w) ∧
    ((∃ e, (ScaleTo w n).1 = .error e) → (ScaleTo w n).2 = w) := by
  refine ⟨scaleUp_error_frame w n, scaleDown_error_frame w n, ?_⟩
  rw [ScaleTo]
  split
  · exact scaleDown_error_frame w n
  · split
    · exact scaleUp_error_frame w n
    · intro _; rfl

/-- Witness for C8 at `testPool = NewPool 3` and `n = 3`, where all
three scale operations return an error. -/
theorem claim8_errorFrame_witness :
    (ScaleUp testPool 3).2 = testPool ∧
    (ScaleDown testPool 3).2 = testPool ∧
    (ScaleTo testPool 3).2 = testPool :=
  ⟨(claim8_errorFrame testPool 3).1 ⟨_, rfl⟩,
   (claim8_errorFrame testPool 3).2.1 ⟨_, rfl⟩,
   (claim8_errorFrame testPool 3).2.2 ⟨_, rfl⟩⟩

/-- C9: `Stop()` on a pool with both channels still open closes the
`jobs` channel and the `stop` channel and changes nothing else: every
counter — `size`, `busy`, `closing`, and the `spawned`/`signals`/
`exited` instrumentation — is untouched, so `Size()`, `Busy()` and
`Excess()` read the same values after as before. -/
theorem claim9_stop (w : WorkerPool)
    (h1 : w.jobsClosed = false) (h2 : w.stopClosed = false) :
    Stop w = some { w with jobsClosed := true, stopClosed := true } ∧
    ∀ w', Stop w = some w' →
      Size w' = Size w ∧ Busy w' = Busy w ∧ Excess w' = Excess w ∧
      w'.spawned = w.spawned ∧ w'.signals = w.signals ∧
      w'.exited = w.exited ∧ w'.jobsClosed = true ∧ w'.stopClosed = true := by
  have hs : Stop w = some { w with jobsClosed := true, stopClosed := true } := by
    rw [Stop, if_neg (by simp [h1, h2])]
  refine ⟨hs, ?_⟩
  intro w' hw'
  rw [hs] at hw'
  injection hw' with hw'
  subst hw'
  exact ⟨rfl, rfl, rfl, rfl, rfl, rfl, rfl, rfl⟩

/-- Witness for C9 at `testPool = NewPool 3`. -/
theorem claim9_stop_witness :
    Stop testPool =
      some { testPool with jobsClosed := true, stopClosed := true } ∧
    Size { testPool with jobsClosed := true, stopClosed := true } =
      Size testPool ∧
    Excess { testPool with jobsClosed := true, stopClosed := true } =
      Excess testPool :=
  ⟨(claim9_stop testPool rfl rfl).1,
   ((claim9_stop testPool rfl rfl).2 _ (claim9_stop testPool rfl rfl).1).1,
   ((claim9_stop testPool rfl rfl).2 _
      (claim9_stop testPool rfl rfl).1).2.2.1⟩

/-- C10: after `Stop()` or `StopAndCount()` has returned, any call to
`Run(item)` panics (the `jobs` channel is closed) rather than silently
succeeding. -/
theorem claim10_runAfterStop (w : WorkerPool) :
    (∀ w', Stop w = some w' → Run w' = none) ∧
    (∀ w', StopAndCount w = some w' → Run w' = none) := by
  have hstop : ∀ v w' : WorkerPool, Stop v = some w' → Run w' = none := by
    intro v w' h
    rw [Stop] at h
    split at h
    · exact Option.noConfusion h
    · injection h with h
      subst h
      simp [Run]
  exact ⟨hstop w, fun w' h => hstop (ScaleDown w 0).2 w' h⟩

/-- Witness for C10 at `testPool = NewPool 3`: running after `Stop` and
after `StopAndCount` panics. -/
theorem claim10_runAfterStop_witness :
    Run { testPool with jobsClosed := true, stopClosed := true } = none ∧
    Run { size := 0, busy := 0, closing := 0, bufCap := 0,
          jobsClosed := true, stopClosed := true,
          spawned := 3, exited := 3, signals := 3 } = none :=
  ⟨(claim10_runAfterStop testPool).1 _ (by decide),
   (claim10_runAfterStop testPool).2 _ (by decide)⟩

end Workers
